import Mathlib

/-!
Shallow embedding of the opportunity-evaluation pipeline of the
binance-arbitrage-usdt-usdc repository, together with proofs about the
claims of its specification.

Modelling conventions:
* `rust_decimal::Decimal` is modelled as `ℚ` (exact arithmetic; every value
  and operation the verified code paths use is exact in `Decimal` as well,
  apart from `sqrt`, which is abstracted as a parameter where it occurs).
* `chrono::DateTime` instants are modelled as `ℚ` (seconds); the local
  calendar date used by the daily-loss controller is a `(year, month, day)`
  triple.  `Utc::now()` / `Local::now()` become explicit `now` / `today`
  parameters threaded through the functions that call them.
* Interior mutability (`Arc<Mutex<_>>` fields) becomes explicit state
  passing: each controller/strategy method takes and returns its state.
* `Result<T>` becomes `Except String T`; `Option` stays `Option`.
-/

/-- `models::QuoteCurrency` (src/models/mod.rs). -/
inductive QuoteCurrency where
  | USDT
  | USDC
deriving DecidableEq

/-- `Display` for `QuoteCurrency` (src/models/mod.rs). -/
def QuoteCurrency.show : QuoteCurrency → String
  | .USDT => "USDT"
  | .USDC => "USDC"

/-- `models::Side` (src/models/mod.rs). -/
inductive Side where
  | Buy
  | Sell
deriving DecidableEq

/-- `models::OrderStatus` (src/models/mod.rs). -/
inductive OrderStatus where
  | New
  | PartiallyFilled
  | Filled
  | Cancelled
  | Rejected
  | Expired
deriving DecidableEq

/-- `models::ArbitrageStatus` (src/models/mod.rs). -/
inductive ArbitrageStatus where
  | Identified
  | BuyOrderPlaced
  | BuyOrderFilled
  | SellOrderPlaced
  | SellOrderFilled
  | Completed
  | Failed
deriving DecidableEq

/-- `models::ArbitrageOpportunity` (src/models/mod.rs). -/
structure ArbitrageOpportunity where
  base_asset : String
  buy_quote : QuoteCurrency
  sell_quote : QuoteCurrency
  buy_price : ℚ
  sell_price : ℚ
  price_diff : ℚ
  profit_percentage : ℚ
  max_trade_amount : ℚ
  timestamp : ℚ
deriving DecidableEq

/-- `ArbitrageOpportunity::new` (src/models/mod.rs, lines 80–108).
`Utc::now()` is the explicit `ts` argument. -/
def ArbitrageOpportunity.new (base_asset : String) (buy_quote sell_quote : QuoteCurrency)
    (buy_price sell_price max_trade_amount : ℚ) (ts : ℚ) : ArbitrageOpportunity :=
  let price_diff := sell_price - buy_price
  let profit_percentage := if buy_price = 0 then 0 else (price_diff / buy_price) * 100
  { base_asset := base_asset
    buy_quote := buy_quote
    sell_quote := sell_quote
    buy_price := buy_price
    sell_price := sell_price
    price_diff := price_diff
    profit_percentage := profit_percentage
    max_trade_amount := max_trade_amount
    timestamp := ts }

/-- `models::OrderInfo` (src/models/mod.rs). -/
structure OrderInfo where
  order_id : ℕ
  symbol : String
  price : ℚ
  qty : ℚ
  side : Side
  status : OrderStatus
  timestamp : ℚ
deriving DecidableEq

/-- `models::ArbitrageResult` (src/models/mod.rs).  The engine and the risk
modules construct this record with a single `timestamp` field, which is the
variant embedded here. -/
structure ArbitrageResult where
  base_asset : String
  buy_quote : String
  sell_quote : String
  buy_price : ℚ
  sell_price : ℚ
  trade_amount : ℚ
  profit : ℚ
  profit_percentage : ℚ
  buy_order_id : Option ℕ
  sell_order_id : Option ℕ
  status : ArbitrageStatus
  timestamp : ℚ
deriving DecidableEq

/-! ## Strategy-side opportunity construction

Each strategy builds its `ArbitrageOpportunity` by choosing one of the two
quote orderings and calling `ArbitrageOpportunity::new`.  The functions below
embed each construction site with the inputs it receives at that point in
the source. -/

/-- `SimpleArbitrageStrategy::find_opportunity` (src/strategies/simple.rs,
lines 35–72).  Always returns `Some`. -/
def simple_find_opportunity (max_trade_amount : ℚ) (base_asset : String)
    (usdt_price usdc_price : ℚ) (ts : ℚ) : Option ArbitrageOpportunity :=
  some (if usdt_price < usdc_price then
    ArbitrageOpportunity.new base_asset .USDT .USDC usdt_price usdc_price max_trade_amount ts
  else
    ArbitrageOpportunity.new base_asset .USDC .USDT usdc_price usdt_price max_trade_amount ts)

/-- `SimpleArbitrageStrategy::validate_opportunity` (src/strategies/simple.rs,
lines 74–87). -/
def simple_validate_opportunity (min_profit : ℚ) (opp : ArbitrageOpportunity) : Bool :=
  min_profit ≤ opp.profit_percentage

/-- Construction site of `TimeWeightedAverageStrategy::find_opportunity`
(src/strategies/twap.rs, lines 114–135): the branch on the TWAP prices and
the per-slice amount, with the TWAP values as inputs. -/
def twap_opportunity (base_asset : String) (twap_usdt twap_usdc slice_amount ts : ℚ) :
    ArbitrageOpportunity :=
  if twap_usdt < twap_usdc then
    ArbitrageOpportunity.new base_asset .USDT .USDC twap_usdt twap_usdc slice_amount ts
  else
    ArbitrageOpportunity.new base_asset .USDC .USDT twap_usdc twap_usdt slice_amount ts

/-- Construction site of `OrderBookDepthStrategy::find_opportunity`
(src/strategies/depth.rs, lines 151–189): the three-way branch on the
slippage-adjusted effective prices, with those prices as inputs. -/
def depth_opportunity (base_asset : String)
    (usdt_effective_buy usdt_effective_sell usdc_effective_buy usdc_effective_sell : ℚ)
    (max_trade_amount ts : ℚ) : Option ArbitrageOpportunity :=
  if usdt_effective_buy < usdc_effective_sell then
    some (ArbitrageOpportunity.new base_asset .USDT .USDC
      usdt_effective_buy usdc_effective_sell max_trade_amount ts)
  else if usdc_effective_buy < usdt_effective_sell then
    some (ArbitrageOpportunity.new base_asset .USDC .USDT
      usdc_effective_buy usdt_effective_sell max_trade_amount ts)
  else
    none

/-- `SlippageControlStrategy::adjust_for_volatility`
(src/strategies/slippage.rs, lines 99–136), with the volatility figure
`max_vol` (computed in the source via `Decimal::sqrt`) taken as an input.
Prices are shifted according to the quote pair and then `price_diff` and
`profit_percentage` are recomputed. -/
def slippage_adjust_for_volatility (max_slippage_pct max_vol : ℚ)
    (opp : ArbitrageOpportunity) : ArbitrageOpportunity :=
  let volatility_factor := 1 + max_vol / 100
  let opp1 :=
    match opp.buy_quote, opp.sell_quote with
    | .USDT, .USDC =>
        { opp with
          buy_price := opp.buy_price * (1 - max_slippage_pct / 100 / volatility_factor)
          sell_price := opp.sell_price * (1 + max_slippage_pct / 100 / volatility_factor) }
    | .USDC, .USDT =>
        { opp with
          buy_price := opp.buy_price * (1 - max_slippage_pct / 100 / volatility_factor)
          sell_price := opp.sell_price * (1 + max_slippage_pct / 100 / volatility_factor) }
    | _, _ => opp
  let price_diff := opp1.sell_price - opp1.buy_price
  let profit_percentage :=
    if opp1.buy_price = 0 then 0 else (price_diff / opp1.buy_price) * 100
  { opp1 with price_diff := price_diff, profit_percentage := profit_percentage }

/-- `SlippageControlStrategy::find_opportunity`
(src/strategies/slippage.rs, lines 149–192): the initial spot-price
construction followed by the volatility adjustment.  The volatility figure
is an input (see `slippage_adjust_for_volatility`); the price-history
recording does not affect the returned opportunity. -/
def slippage_find_opportunity (max_slippage_pct max_vol max_trade_amount : ℚ)
    (base_asset : String) (usdt_price usdc_price ts : ℚ) : Option ArbitrageOpportunity :=
  let opp :=
    if usdt_price < usdc_price then
      ArbitrageOpportunity.new base_asset .USDT .USDC usdt_price usdc_price max_trade_amount ts
    else
      ArbitrageOpportunity.new base_asset .USDC .USDT usdc_price usdt_price max_trade_amount ts
  some (slippage_adjust_for_volatility max_slippage_pct max_vol opp)

/-! ## TrendFollowingStrategy (src/strategies/trend.rs) -/

/-- `TrendDirection` (src/strategies/trend.rs). -/
inductive TrendDirection where
  | Up
  | Down
  | Sideways
deriving DecidableEq

/-- The price history of `TrendFollowingStrategy`: entries are
`(timestamp, usdt_price, usdc_price)`. -/
structure TrendState where
  price_history : List (ℚ × ℚ × ℚ)
deriving DecidableEq

/-- `TrendFollowingStrategy::record_price` (src/strategies/trend.rs,
lines 63–74): push the newest sample, evict the oldest once the deque
exceeds `long_window`. -/
def trend_record_price (long_window : ℕ) (now usdt_price usdc_price : ℚ)
    (s : TrendState) : TrendState :=
  let history := s.price_history ++ [(now, usdt_price, usdc_price)]
  { price_history := if long_window < history.length then history.tail else history }

/-- `TrendFollowingStrategy::calculate_trend` (src/strategies/trend.rs,
lines 77–117). -/
def calculate_trend (short_window long_window : ℕ) (trend_threshold : ℚ)
    (is_usdt : Bool) (s : TrendState) : TrendDirection × ℚ :=
  if s.price_history.length < short_window then (.Sideways, 0)
  else
    let prices := if is_usdt then s.price_history.map (fun r => r.2.1)
                  else s.price_history.map (fun r => r.2.2)
    let short_mean := (prices.reverse.take short_window).sum / (short_window : ℚ)
    if long_window ≤ s.price_history.length then
      let long_mean := (prices.reverse.take long_window).sum / (long_window : ℚ)
      let trend_change := ((short_mean - long_mean) / long_mean) * 100
      let direction :=
        if trend_threshold < trend_change then TrendDirection.Up
        else if trend_change < -trend_threshold then TrendDirection.Down
        else TrendDirection.Sideways
      (direction, |trend_change|)
    else (.Sideways, 0)

/-- The per-pair percentage changes scanned by
`TrendFollowingStrategy::has_recent_volatility_spike`
(src/strategies/trend.rs, lines 136–158): for each consecutive pair of
samples, the absolute USDT change and the absolute USDC change, each
skipped when the previous price is zero. -/
def adjacent_changes : List (ℚ × ℚ × ℚ) → List ℚ
  | a :: b :: rest =>
      (if a.2.1 = 0 then [] else [|(b.2.1 - a.2.1) / a.2.1| * 100]) ++
      (if a.2.2 = 0 then [] else [|(b.2.2 - a.2.2) / a.2.2| * 100]) ++
      adjacent_changes (b :: rest)
  | _ => []

/-- `TrendFollowingStrategy::has_recent_volatility_spike`
(src/strategies/trend.rs, lines 120–162). -/
def has_recent_volatility_spike (now : ℚ) (minutes : ℚ) (s : TrendState) : Bool :=
  if s.price_history.length < 2 then false
  else
    let cutoff_time := now - minutes * 60
    let recent := s.price_history.filter (fun r => cutoff_time ≤ r.1)
    if recent.length < 2 then false
    else decide (5 < (adjacent_changes recent).foldl max 0)

/-- Trade-amount reduction of `TrendFollowingStrategy::find_opportunity`
(src/strategies/trend.rs, lines 244–258). -/
def trend_adjust_amount (max_trade_amount strength : ℚ)
    (opp : ArbitrageOpportunity) : ArbitrageOpportunity :=
  if 1 < strength then
    let reduction_factor := 1 - (strength - 1) / 10
    let adjusted_amount := opp.max_trade_amount * reduction_factor
    { opp with max_trade_amount :=
        if adjusted_amount < max_trade_amount / 5 then max_trade_amount / 5
        else adjusted_amount }
  else opp

/-- `TrendFollowingStrategy::find_opportunity` (src/strategies/trend.rs,
lines 175–261).  Returns the updated price history together with the
optional opportunity. -/
def trend_find_opportunity (short_window long_window : ℕ)
    (trend_threshold max_trade_amount : ℚ) (now : ℚ) (base_asset : String)
    (usdt_price usdc_price : ℚ) (s : TrendState) :
    TrendState × Option ArbitrageOpportunity :=
  let s1 := trend_record_price long_window now usdt_price usdc_price s
  if has_recent_volatility_spike now 5 s1 then (s1, none)
  else
    let usdt_res := calculate_trend short_window long_window trend_threshold true s1
    let usdc_res := calculate_trend short_window long_window trend_threshold false s1
    if usdt_price < usdc_price then
      if (usdt_res.1 = .Up ∧ 2 < usdt_res.2) ∨ (usdc_res.1 = .Down ∧ 2 < usdc_res.2) then
        (s1, none)
      else
        let opp := ArbitrageOpportunity.new base_asset .USDT .USDC
          usdt_price usdc_price max_trade_amount now
        (s1, some (trend_adjust_amount max_trade_amount (max usdt_res.2 usdc_res.2) opp))
    else
      if (usdc_res.1 = .Up ∧ 2 < usdc_res.2) ∨ (usdt_res.1 = .Down ∧ 2 < usdt_res.2) then
        (s1, none)
      else
        let opp := ArbitrageOpportunity.new base_asset .USDC .USDT
          usdc_price usdt_price max_trade_amount now
        (s1, some (trend_adjust_amount max_trade_amount (max usdt_res.2 usdc_res.2) opp))

/-! ## Engine: best-opportunity selection (src/arbitrage/engine.rs, lines 283–364) -/

/-- What one enabled strategy contributed during a tick, as observed by
`find_best_arbitrage_opportunity`: `find_opportunity` erred, found nothing,
or found an opportunity whose `validate_opportunity` call erred or returned
a boolean. -/
inductive StrategyOutcome where
  | find_err
  | find_none
  | found (opp : ArbitrageOpportunity) (validated : Except Unit Bool)

/-- The strategy loop of `find_best_arbitrage_opportunity`
(src/arbitrage/engine.rs, lines 295–332): running best opportunity and its
profit percentage, updated on strict improvement. -/
def find_best_loop : List StrategyOutcome → Option ArbitrageOpportunity → ℚ →
    Option ArbitrageOpportunity
  | [], best, _ => best
  | .found opp (.ok true) :: rest, best, best_profit =>
      if best_profit < opp.profit_percentage then
        find_best_loop rest (some opp) opp.profit_percentage
      else
        find_best_loop rest best best_profit
  | _ :: rest, best, best_profit => find_best_loop rest best best_profit

/-- The fallback opportunity of `find_best_arbitrage_opportunity`
(src/arbitrage/engine.rs, lines 334–361): a Simple-strategy-equivalent
opportunity from the spot prices at the full configured amount. -/
def fallback_opportunity (base_asset : String)
    (usdt_price usdc_price max_trade_amount ts : ℚ) : ArbitrageOpportunity :=
  if usdt_price < usdc_price then
    ArbitrageOpportunity.new base_asset .USDT .USDC usdt_price usdc_price max_trade_amount ts
  else
    ArbitrageOpportunity.new base_asset .USDC .USDT usdc_price usdt_price max_trade_amount ts

/-- `find_best_arbitrage_opportunity` (src/arbitrage/engine.rs,
lines 283–364): the loop starting from no best and `Decimal::ZERO`, then
the fallback when the loop selected nothing. -/
def find_best_arbitrage_opportunity (outcomes : List StrategyOutcome)
    (base_asset : String) (usdt_price usdc_price max_trade_amount ts : ℚ) :
    ArbitrageOpportunity :=
  match find_best_loop outcomes none 0 with
  | some opp => opp
  | none => fallback_opportunity base_asset usdt_price usdc_price max_trade_amount ts

/-! ## Engine: two-leg execution (src/arbitrage/engine.rs, lines 367–476) -/

/-- The exchange's responses during one `execute_arbitrage` run:
the outcome of each `place_order` call (`none` models an `Err`) and the
stream of `get_order_status` responses for each leg (`none` models an
`Err`, which aborts the whole function via `?`). -/
structure ExchangeTrace where
  buy_place : Option OrderInfo
  buy_polls : ℕ → Option OrderInfo
  sell_place : Option OrderInfo
  sell_polls : ℕ → Option OrderInfo

/-- The polling loop of `execute_arbitrage` (src/arbitrage/engine.rs,
lines 412–421 and 447–456): up to 10 rounds, each breaking once the order
is `Filled`, otherwise taking the next `get_order_status` response. -/
def poll_order_loop : ℕ → OrderInfo → (ℕ → Option OrderInfo) → ℕ → Option OrderInfo
  | 0, cur, _, _ => some cur
  | n + 1, cur, polls, i =>
      if cur.status = .Filled then some cur
      else
        match polls i with
        | some next => poll_order_loop n next polls (i + 1)
        | none => none

/-- `execute_arbitrage` (src/arbitrage/engine.rs, lines 367–476).  Errors of
`place_order`, of `get_order_status` and the unfilled-after-10-polls
timeout (which cancels the order) all surface as `Except.error`, exactly as
the `Result` propagation in the source; the engine's caller then builds its
own zeroed `Failed` record. -/
def execute_arbitrage (opp : ArbitrageOpportunity) (tr : ExchangeTrace) :
    Except String ArbitrageResult :=
  let trade_amount_quote := opp.max_trade_amount
  let trade_amount_base := trade_amount_quote / opp.buy_price
  match tr.buy_place with
  | none => .error "买入订单失败"
  | some buy_order =>
    match poll_order_loop 10 buy_order tr.buy_polls 0 with
    | none => .error "获取买入订单状态失败"
    | some buy_order_status =>
      if buy_order_status.status ≠ .Filled then .error "买入订单未在预期时间内完成"
      else
        match tr.sell_place with
        | none => .error "卖出订单失败"
        | some sell_order =>
          match poll_order_loop 10 sell_order tr.sell_polls 0 with
          | none => .error "获取卖出订单状态失败"
          | some sell_order_status =>
            if sell_order_status.status ≠ .Filled then .error "卖出订单未在预期时间内完成"
            else
              let buy_total := trade_amount_base * buy_order_status.price
              let sell_total := trade_amount_base * sell_order_status.price
              let profit := sell_total - buy_total
              .ok
                { base_asset := opp.base_asset
                  buy_quote := opp.buy_quote.show
                  sell_quote := opp.sell_quote.show
                  buy_price := opp.buy_price
                  sell_price := opp.sell_price
                  trade_amount := trade_amount_base
                  profit := profit
                  profit_percentage := opp.profit_percentage
                  buy_order_id := some buy_order.order_id
                  sell_order_id := some sell_order.order_id
                  status := .Completed
                  timestamp := opp.timestamp }

/-! ## DailyLossLimitController (src/risk/loss_limit.rs) -/

/-- State of `DailyLossLimitController`: the stored `(year, month, day)`
triple and the accumulated daily PnL. -/
structure DailyLossLimitState where
  current_date : ℤ × ℕ × ℕ
  daily_pnl : ℚ
deriving DecidableEq

/-- `DailyLossLimitController::check_new_day` (src/risk/loss_limit.rs,
lines 35–49): `Local::now()`'s date is the explicit `today` argument. -/
def check_new_day (today : ℤ × ℕ × ℕ) (s : DailyLossLimitState) : DailyLossLimitState :=
  if s.current_date ≠ today then { current_date := today, daily_pnl := 0 } else s

/-- `DailyLossLimitController::check_opportunity` (src/risk/loss_limit.rs,
lines 62–79).  The opportunity argument is unused in the source as well. -/
def loss_limit_check_opportunity (max_daily_loss : ℚ) (today : ℤ × ℕ × ℕ)
    (_opp : ArbitrageOpportunity) (s : DailyLossLimitState) :
    DailyLossLimitState × Bool × Option String :=
  let s1 := check_new_day today s
  if s1.daily_pnl ≤ -max_daily_loss then
    (s1, false, some "已达到每日最大亏损限额")
  else
    (s1, true, none)

/-- `DailyLossLimitController::record_result` (src/risk/loss_limit.rs,
lines 81–97). -/
def loss_limit_record_result (today : ℤ × ℕ × ℕ) (result : ArbitrageResult)
    (s : DailyLossLimitState) : DailyLossLimitState :=
  let s1 := check_new_day today s
  if result.status = .Completed then { s1 with daily_pnl := s1.daily_pnl + result.profit }
  else s1

/-- `DailyLossLimitController::reset` (src/risk/loss_limit.rs, lines 99–106). -/
def loss_limit_reset (s : DailyLossLimitState) : DailyLossLimitState :=
  { s with daily_pnl := 0 }

/-! ## TradingFrequencyController (src/risk/frequency.rs) -/

/-- State of `TradingFrequencyController`: last trade time and the deque of
recent trade timestamps. -/
structure TradingFrequencyState where
  last_trade_time : Option ℚ
  recent_trades : List ℚ
deriving DecidableEq

/-- `TradingFrequencyController::check_frequency` (src/risk/frequency.rs,
lines 37–78): gate 1 is the minimum interval since the last trade; gate 2
prunes the front of the deque below the cutoff and compares the remaining
count against the per-timeframe maximum. -/
def check_frequency (min_interval_seconds : ℚ) (max_trades_per_timeframe : ℕ)
    (timeframe_seconds : ℚ) (now : ℚ) (s : TradingFrequencyState) :
    TradingFrequencyState × Bool × Option String :=
  let gate2 : TradingFrequencyState × Bool × Option String :=
    let cutoff_time := now - timeframe_seconds
    let recent := s.recent_trades.dropWhile (fun t => t < cutoff_time)
    if max_trades_per_timeframe ≤ recent.length then
      ({ s with recent_trades := recent }, false, some "达到时间窗口内最大交易次数")
    else
      ({ s with recent_trades := recent }, true, none)
  match s.last_trade_time with
  | some last_time =>
      if now - last_time < min_interval_seconds then
        (s, false, some "交易频率过高，需等待")
      else gate2
  | none => gate2

/-- `TradingFrequencyController::record_result` (src/risk/frequency.rs,
lines 113–125), inlining `record_trade` (lines 81–96). -/
def frequency_record_result (now : ℚ) (result : ArbitrageResult)
    (s : TradingFrequencyState) : TradingFrequencyState :=
  if result.status = .Completed ∨ result.status = .Failed then
    { last_trade_time := some now, recent_trades := s.recent_trades ++ [now] }
  else s

/-- `TradingFrequencyController::reset` (src/risk/frequency.rs, lines 127–137). -/
def frequency_reset (_s : TradingFrequencyState) : TradingFrequencyState :=
  { last_trade_time := none, recent_trades := [] }

/-! ## AbnormalPriceController (src/risk/price_protection.rs) -/

/-- `PriceRecord` (src/risk/price_protection.rs). -/
structure PriceRecord where
  timestamp : ℚ
  symbol : String
  price : ℚ
deriving DecidableEq, Inhabited

/-- State of `AbnormalPriceController`: the shared price-record ring and the
last abnormal-detection time. -/
structure AbnormalPriceState where
  price_history : List PriceRecord
  last_abnormal_time : Option ℚ
deriving DecidableEq

/-- `AbnormalPriceController::add_price` (src/risk/price_protection.rs,
lines 47–63): push the record, evict the oldest once the ring exceeds
`2 · window_size`. -/
def add_price (window_size : ℕ) (now : ℚ) (symbol : String) (price : ℚ)
    (s : AbnormalPriceState) : AbnormalPriceState :=
  let history := s.price_history ++ [{ timestamp := now, symbol := symbol, price := price }]
  { s with price_history := if window_size * 2 < history.length then history.tail else history }

/-- `AbnormalPriceController::detect_abnormal_price`
(src/risk/price_protection.rs, lines 66–98). -/
def detect_abnormal_price (abnormal_threshold : ℚ) (symbol : String)
    (s : AbnormalPriceState) : Option ℚ :=
  let symbol_records := s.price_history.filter (fun r => r.symbol = symbol)
  if symbol_records.length < 2 then none
  else
    let latest := symbol_records.getLastD default
    let previous_records := symbol_records.dropLast
    let avg_price := (previous_records.map (fun r => r.price)).sum /
      (previous_records.length : ℚ)
    if avg_price = 0 then none
    else
      let change_pct := |(latest.price - avg_price) / avg_price| * 100
      if abnormal_threshold < change_pct then some change_pct else none

/-- `AbnormalPriceController::is_in_cooldown`
(src/risk/price_protection.rs, lines 101–114). -/
def is_in_cooldown (cooldown_period : ℚ) (now : ℚ) (s : AbnormalPriceState) : Bool :=
  match s.last_abnormal_time with
  | some last_time => decide (now - last_time < cooldown_period)
  | none => false

/-- The cooldown rejection reason (src/risk/price_protection.rs, line 146). -/
def cooldown_reason : String := "仍在异常价格冷却期内，暂停交易"

/-- The abnormal-change rejection reason (src/risk/price_protection.rs,
lines 152–155 and 165–168); the numeric formatting of the source message is
omitted. -/
def abnormal_reason (symbol : String) : String := "检测到 " ++ symbol ++ " 异常价格变化"

/-- `AbnormalPriceController::check_opportunity`
(src/risk/price_protection.rs, lines 127–178). -/
def abnormal_check_opportunity (window_size : ℕ) (abnormal_threshold : ℚ)
    (cooldown_period : ℚ) (now : ℚ) (opp : ArbitrageOpportunity)
    (s : AbnormalPriceState) : AbnormalPriceState × Bool × Option String :=
  let usdt_symbol := opp.base_asset ++ "USDT"
  let usdc_symbol := opp.base_asset ++ "USDC"
  let s1 :=
    match opp.buy_quote with
    | .USDT =>
        add_price window_size now usdc_symbol opp.sell_price
          (add_price window_size now usdt_symbol opp.buy_price s)
    | .USDC =>
        add_price window_size now usdt_symbol opp.sell_price
          (add_price window_size now usdc_symbol opp.buy_price s)
  if is_in_cooldown cooldown_period now s1 then
    (s1, false, some cooldown_reason)
  else
    match detect_abnormal_price abnormal_threshold usdt_symbol s1 with
    | some _ => ({ s1 with last_abnormal_time := some now }, false,
        some (abnormal_reason usdt_symbol))
    | none =>
      match detect_abnormal_price abnormal_threshold usdc_symbol s1 with
      | some _ => ({ s1 with last_abnormal_time := some now }, false,
          some (abnormal_reason usdc_symbol))
      | none => (s1, true, none)

/-- `AbnormalPriceController::reset` (src/risk/price_protection.rs,
lines 185–195). -/
def abnormal_reset (_s : AbnormalPriceState) : AbnormalPriceState :=
  { price_history := [], last_abnormal_time := none }

/-! ## PairBlacklistController (src/risk/blacklist.rs) -/

/-- State of `PairBlacklistController`: the set of blacklisted
`"<base><quote>"` strings, modelled as a list with membership lookup. -/
structure PairBlacklistState where
  blacklist : List String
deriving DecidableEq

/-- `PairBlacklistController::check_opportunity` (src/risk/blacklist.rs,
lines 90–107). -/
def blacklist_check_opportunity (opp : ArbitrageOpportunity)
    (s : PairBlacklistState) : Bool × Option String :=
  let usdt_pair := opp.base_asset ++ "USDT"
  let usdc_pair := opp.base_asset ++ "USDC"
  if s.blacklist.contains usdt_pair ∨ s.blacklist.contains usdc_pair then
    (false, some (opp.base_asset ++ " 在黑名单中，不执行套利"))
  else
    (true, none)

/-- `PairBlacklistController::reset` (src/risk/blacklist.rs, lines 114–121). -/
def blacklist_reset (_s : PairBlacklistState) : PairBlacklistState :=
  { blacklist := [] }

/-! ## RiskManager (src/risk/mod.rs) -/

/-- The outcome of one controller's `check_opportunity` call:
`Result<(bool, Option<String>)>`. -/
inductive CheckOutcome where
  | ok (allow : Bool) (reason : Option String)
  | err (msg : String)
deriving DecidableEq

/-- The accumulation loop of `RiskManager::validate_opportunity`
(src/risk/mod.rs, lines 50–72), over the configured controller list given
as `(name, outcome)` pairs. -/
def validate_opportunity_loop : List (String × CheckOutcome) → Bool → List String →
    Bool × List String
  | [], is_valid, reasons => (is_valid, reasons)
  | (name, oc) :: rest, is_valid, reasons =>
      match oc with
      | .ok true _ => validate_opportunity_loop rest is_valid reasons
      | .ok false (some r) =>
          validate_opportunity_loop rest false (reasons ++ [name ++ ": " ++ r])
      | .ok false none => validate_opportunity_loop rest false reasons
      | .err e =>
          validate_opportunity_loop rest false (reasons ++ [name ++ ": 风控检查错误 - " ++ e])

/-- `RiskManager::validate_opportunity` (src/risk/mod.rs, lines 50–72). -/
def validate_opportunity (controllers : List (String × CheckOutcome)) : Bool × List String :=
  validate_opportunity_loop controllers true []

/-! ## Spec-side definitions -/

/-- The field invariant of an emitted opportunity stated by the spec:
`price_diff = sell − buy`, `profit_percentage = 0` when `buy = 0` and
`100·(sell − buy)/buy` otherwise, and distinct quote currencies. -/
def opportunity_invariant (o : ArbitrageOpportunity) : Prop :=
  o.price_diff = o.sell_price - o.buy_price ∧
  o.profit_percentage =
    (if o.buy_price = 0 then 0 else (o.sell_price - o.buy_price) / o.buy_price * 100) ∧
  o.buy_quote ≠ o.sell_quote

lemma opportunity_invariant_new (base : String) (bq sq : QuoteCurrency)
    (bp sp amt ts : ℚ) (h : bq ≠ sq) :
    opportunity_invariant (ArbitrageOpportunity.new base bq sq bp sp amt ts) :=
  ⟨rfl, rfl, h⟩

lemma opportunity_invariant_slippage_adjust (ms mv : ℚ) (o : ArbitrageOpportunity)
    (h : o.buy_quote ≠ o.sell_quote) :
    opportunity_invariant (slippage_adjust_for_volatility ms mv o) := by
  unfold slippage_adjust_for_volatility
  rcases hb : o.buy_quote <;> rcases hs : o.sell_quote <;>
    simp_all [opportunity_invariant]

lemma opportunity_invariant_trend_adjust (amt strength : ℚ) (o : ArbitrageOpportunity)
    (h : opportunity_invariant o) :
    opportunity_invariant (trend_adjust_amount amt strength o) := by
  unfold trend_adjust_amount
  split
  · exact h
  · exact h

lemma usdt_ne_usdc : QuoteCurrency.USDT ≠ QuoteCurrency.USDC := by decide

lemma usdc_ne_usdt : QuoteCurrency.USDC ≠ QuoteCurrency.USDT := by decide

/-- C1: every `ArbitrageOpportunity` built by `ArbitrageOpportunity::new`
has `price_diff = sell_price − buy_price` and `profit_percentage = 0` when
`buy_price = 0`, else `100·(sell − buy)/buy` exactly; and every opportunity
emitted by a strategy or by the engine fallback additionally has
`buy_quote ≠ sell_quote`. -/
theorem c1_opportunity_construction :
    (∀ (base : String) (bq sq : QuoteCurrency) (bp sp amt ts : ℚ),
      (ArbitrageOpportunity.new base bq sq bp sp amt ts).price_diff = sp - bp ∧
      (ArbitrageOpportunity.new base bq sq bp sp amt ts).profit_percentage =
        (if bp = 0 then 0 else (sp - bp) / bp * 100)) ∧
    (∀ amt base u c ts o, simple_find_opportunity amt base u c ts = some o →
      opportunity_invariant o) ∧
    (∀ base tu tc sl ts, opportunity_invariant (twap_opportunity base tu tc sl ts)) ∧
    (∀ base ub us cb cs amt ts o, depth_opportunity base ub us cb cs amt ts = some o →
      opportunity_invariant o) ∧
    (∀ ms mv amt base u c ts o, slippage_find_opportunity ms mv amt base u c ts = some o →
      opportunity_invariant o) ∧
    (∀ sw lw th amt now base u c s o,
      (trend_find_opportunity sw lw th amt now base u c s).2 = some o →
      opportunity_invariant o) ∧
    (∀ base u c amt ts, opportunity_invariant (fallback_opportunity base u c amt ts)) := by
  refine ⟨fun base bq sq bp sp amt ts => ⟨rfl, rfl⟩, ?_, ?_, ?_, ?_, ?_, ?_⟩
  · intro amt base u c ts o h
    unfold simple_find_opportunity at h
    split at h <;> (cases h; first
      | exact opportunity_invariant_new _ _ _ _ _ _ _ usdt_ne_usdc
      | exact opportunity_invariant_new _ _ _ _ _ _ _ usdc_ne_usdt)
  · intro base tu tc sl ts
    unfold twap_opportunity
    split
    · exact opportunity_invariant_new _ _ _ _ _ _ _ usdt_ne_usdc
    · exact opportunity_invariant_new _ _ _ _ _ _ _ usdc_ne_usdt
  · intro base ub us cb cs amt ts o h
    unfold depth_opportunity at h
    split at h
    · cases h; exact opportunity_invariant_new _ _ _ _ _ _ _ usdt_ne_usdc
    · split at h
      · cases h; exact opportunity_invariant_new _ _ _ _ _ _ _ usdc_ne_usdt
      · cases h
  · intro ms mv amt base u c ts o h
    unfold slippage_find_opportunity at h
    cases h
    split
    · exact opportunity_invariant_slippage_adjust _ _ _ usdt_ne_usdc
    · exact opportunity_invariant_slippage_adjust _ _ _ usdc_ne_usdt
  · intro sw lw th amt now base u c s o h
    simp only [trend_find_opportunity] at h
    split_ifs at h <;> simp at h <;> subst h <;>
      first
        | exact opportunity_invariant_trend_adjust _ _ _
            (opportunity_invariant_new _ _ _ _ _ _ _ usdt_ne_usdc)
        | exact opportunity_invariant_trend_adjust _ _ _
            (opportunity_invariant_new _ _ _ _ _ _ _ usdc_ne_usdt)
  · intro base u c amt ts
    unfold fallback_opportunity
    split
    · exact opportunity_invariant_new _ _ _ _ _ _ _ usdt_ne_usdc
    · exact opportunity_invariant_new _ _ _ _ _ _ _ usdc_ne_usdt

/-- Witness for C1 at concrete inputs. -/
theorem c1_opportunity_construction_witness :
    ((ArbitrageOpportunity.new "BTC" .USDT .USDC 1 2 100 0).price_diff = 2 - 1 ∧
      (ArbitrageOpportunity.new "BTC" .USDT .USDC 1 2 100 0).profit_percentage =
        (if (1 : ℚ) = 0 then 0 else ((2 : ℚ) - 1) / 1 * 100)) ∧
    opportunity_invariant (ArbitrageOpportunity.new "BTC" .USDT .USDC 1 2 100 0) ∧
    opportunity_invariant (twap_opportunity "BTC" 1 2 10 0) ∧
    opportunity_invariant (ArbitrageOpportunity.new "BTC" .USDT .USDC 1 2 100 0) ∧
    opportunity_invariant (ArbitrageOpportunity.new "BTC" .USDT .USDC 1 2 100 0) ∧
    opportunity_invariant (ArbitrageOpportunity.new "BTC" .USDT .USDC 1 2 100 0) ∧
    opportunity_invariant (fallback_opportunity "BTC" 1 2 100 0) :=
  ⟨c1_opportunity_construction.1 "BTC" .USDT .USDC 1 2 100 0,
   c1_opportunity_construction.2.1 100 "BTC" 1 2 0 _
     (by norm_num [simple_find_opportunity]),
   c1_opportunity_construction.2.2.1 "BTC" 1 2 10 0,
   c1_opportunity_construction.2.2.2.1 "BTC" 1 1 1 2 100 0 _
     (by norm_num [depth_opportunity]),
   c1_opportunity_construction.2.2.2.2.1 0 0 100 "BTC" 1 2 0 _
     (by norm_num [slippage_find_opportunity, slippage_adjust_for_volatility,
        ArbitrageOpportunity.new]),
   c1_opportunity_construction.2.2.2.2.2.1 2 4 1 100 0 "BTC" 1 2 ⟨[]⟩ _
     (by norm_num [trend_find_opportunity, trend_record_price,
        has_recent_volatility_spike, calculate_trend, trend_adjust_amount]),
   c1_opportunity_construction.2.2.2.2.2.2 "BTC" 1 2 100 0⟩

/-! ## C2: best-opportunity selection -/

/-- The opportunities that some strategy returned and that passed that same
strategy's validation, in strategy order. -/
def accepted_opportunities : List StrategyOutcome → List ArbitrageOpportunity
  | [] => []
  | .found opp (.ok true) :: rest => opp :: accepted_opportunities rest
  | .found _ (.ok false) :: rest => accepted_opportunities rest
  | .found _ (.error _) :: rest => accepted_opportunities rest
  | .find_err :: rest => accepted_opportunities rest
  | .find_none :: rest => accepted_opportunities rest

/-- The selection loop restricted to the accepted opportunities. -/
def select_loop : List ArbitrageOpportunity → Option ArbitrageOpportunity → ℚ →
    Option ArbitrageOpportunity
  | [], best, _ => best
  | o :: rest, best, best_profit =>
      if best_profit < o.profit_percentage then select_loop rest (some o) o.profit_percentage
      else select_loop rest best best_profit

lemma find_best_loop_eq_select (l : List StrategyOutcome) :
    ∀ (best : Option ArbitrageOpportunity) (bp : ℚ),
    find_best_loop l best bp = select_loop (accepted_opportunities l) best bp := by
  induction l with
  | nil => intro best bp; rfl
  | cons hd tl ih =>
    intro best bp
    match hd with
    | .find_err => exact ih best bp
    | .find_none => exact ih best bp
    | .found opp (.error e) => exact ih best bp
    | .found opp (.ok false) => exact ih best bp
    | .found opp (.ok true) =>
      show (if bp < opp.profit_percentage then _ else _) = _
      unfold accepted_opportunities select_loop
      split
      · exact ih _ _
      · exact ih best bp

lemma select_loop_spec (l : List ArbitrageOpportunity) :
    ∀ (best : Option ArbitrageOpportunity) (bp : ℚ),
    (select_loop l best bp = best ∧ ∀ o ∈ l, o.profit_percentage ≤ bp) ∨
    (∃ pre r post, l = pre ++ r :: post ∧ select_loop l best bp = some r ∧
      bp < r.profit_percentage ∧
      (∀ o ∈ pre, o.profit_percentage < r.profit_percentage) ∧
      (∀ o ∈ post, o.profit_percentage ≤ r.profit_percentage)) := by
  induction l with
  | nil => intro best bp; exact Or.inl ⟨rfl, by simp⟩
  | cons a l ih =>
    intro best bp
    by_cases hlt : bp < a.profit_percentage
    · rcases ih (some a) a.profit_percentage with ⟨hsel, hall⟩ | ⟨pre, r, post, heq, hsel, hr, hpre, hpost⟩
      · refine Or.inr ⟨[], a, l, by simp, ?_, hlt, by simp, hall⟩
        show select_loop (a :: l) best bp = some a
        unfold select_loop
        rw [if_pos hlt]
        exact hsel
      · refine Or.inr ⟨a :: pre, r, post, by simp [heq], ?_, lt_trans hlt hr, ?_, hpost⟩
        · show select_loop (a :: l) best bp = some r
          unfold select_loop
          rw [if_pos hlt]
          exact hsel
        · intro o ho
          rcases List.mem_cons.mp ho with rfl | ho
          · exact hr
          · exact hpre o ho
    · rcases ih best bp with ⟨hsel, hall⟩ | ⟨pre, r, post, heq, hsel, hr, hpre, hpost⟩
      · refine Or.inl ⟨?_, ?_⟩
        · show select_loop (a :: l) best bp = best
          unfold select_loop
          rw [if_neg hlt]
          exact hsel
        · intro o ho
          rcases List.mem_cons.mp ho with rfl | ho
          · exact le_of_not_lt hlt
          · exact hall o ho
      · refine Or.inr ⟨a :: pre, r, post, by simp [heq], ?_, hr, ?_, hpost⟩
        · show select_loop (a :: l) best bp = some r
          unfold select_loop
          rw [if_neg hlt]
          exact hsel
        · intro o ho
          rcases List.mem_cons.mp ho with rfl | ho
          · exact lt_of_le_of_lt (le_of_not_lt hlt) hr
          · exact hpre o ho

/-- C2 (amended): per tick, the engine returns the first accepted
opportunity attaining the maximum `profit_percentage` among accepted
opportunities, provided that maximum is positive (the running best starts
at `Decimal::ZERO` with a strict comparison); when no accepted opportunity
has positive `profit_percentage` — in particular when none was accepted —
it returns the Simple-strategy-equivalent fallback built from the spot
prices at the full configured amount, bypassing per-strategy validation. -/
theorem c2_best_selection (outcomes : List StrategyOutcome) (base : String)
    (usdt_price usdc_price max_trade_amount ts : ℚ) :
    ((∀ o ∈ accepted_opportunities outcomes, o.profit_percentage ≤ 0) ∧
      find_best_arbitrage_opportunity outcomes base usdt_price usdc_price max_trade_amount ts =
        fallback_opportunity base usdt_price usdc_price max_trade_amount ts) ∨
    (∃ pre post,
      accepted_opportunities outcomes = pre ++
        find_best_arbitrage_opportunity outcomes base usdt_price usdc_price max_trade_amount ts
        :: post ∧
      0 < (find_best_arbitrage_opportunity outcomes base usdt_price usdc_price max_trade_amount
        ts).profit_percentage ∧
      (∀ o ∈ pre, o.profit_percentage <
        (find_best_arbitrage_opportunity outcomes base usdt_price usdc_price max_trade_amount
          ts).profit_percentage) ∧
      (∀ o ∈ post, o.profit_percentage ≤
        (find_best_arbitrage_opportunity outcomes base usdt_price usdc_price max_trade_amount
          ts).profit_percentage)) := by
  unfold find_best_arbitrage_opportunity
  rw [find_best_loop_eq_select]
  rcases select_loop_spec (accepted_opportunities outcomes) none 0 with
    ⟨hsel, hall⟩ | ⟨pre, r, post, heq, hsel, hr, hpre, hpost⟩
  · rw [hsel]
    exact Or.inl ⟨hall, rfl⟩
  · rw [hsel]
    exact Or.inr ⟨pre, post, heq, hr, hpre, hpost⟩

/-- The accepted opportunity of `c2_counterexample`: profit percentage 0. -/
def c2_zero_profit_opp : ArbitrageOpportunity :=
  ArbitrageOpportunity.new "BTC" .USDT .USDC 1 1 5 0

/-- Counterexample to C2 as stated: with exactly one accepted opportunity
(returned by a strategy and passing its validation), the engine does not
select it — its profit percentage 0 never beats the initial
`Decimal::ZERO` — and returns the fallback instead. -/
theorem c2_counterexample :
    accepted_opportunities [.found c2_zero_profit_opp (.ok true)] = [c2_zero_profit_opp] ∧
    find_best_arbitrage_opportunity [.found c2_zero_profit_opp (.ok true)]
      "BTC" 1 2 100 0 ≠ c2_zero_profit_opp := by
  constructor
  · rfl
  · intro h
    have h2 : (find_best_arbitrage_opportunity [.found c2_zero_profit_opp (.ok true)]
        "BTC" 1 2 100 0).sell_price = 1 := by rw [h]; rfl
    rw [show find_best_arbitrage_opportunity [.found c2_zero_profit_opp (.ok true)]
        "BTC" 1 2 100 0 = fallback_opportunity "BTC" 1 2 100 0 by
      norm_num [find_best_arbitrage_opportunity, find_best_loop, c2_zero_profit_opp,
        ArbitrageOpportunity.new]] at h2
    norm_num [fallback_opportunity, ArbitrageOpportunity.new] at h2

/-! ## C3: profit of completed executions -/

lemma poll_order_loop_filled (n : ℕ) (o : OrderInfo) (polls : ℕ → Option OrderInfo)
    (i : ℕ) (h : o.status = .Filled) : poll_order_loop (n + 1) o polls i = some o := by
  unfold poll_order_loop
  rw [if_pos h]

/-- C3: every `Ok` result of `execute_arbitrage` is `Completed`, its trade
amount is `max_trade_amount / buy_price`, and its profit equals
`trade_amount · (sell_fill_price − buy_fill_price)` exactly, where the fill
prices are those of the final polled buy and sell order statuses. -/
theorem c3_completed_profit (opp : ArbitrageOpportunity) (tr : ExchangeTrace)
    (res : ArbitrageResult) (h : execute_arbitrage opp tr = .ok res) :
    res.status = .Completed ∧
    res.trade_amount = opp.max_trade_amount / opp.buy_price ∧
    ∃ buy_order sell_order buy_final sell_final,
      tr.buy_place = some buy_order ∧ tr.sell_place = some sell_order ∧
      poll_order_loop 10 buy_order tr.buy_polls 0 = some buy_final ∧
      poll_order_loop 10 sell_order tr.sell_polls 0 = some sell_final ∧
      res.profit = res.trade_amount * (sell_final.price - buy_final.price) := by
  unfold execute_arbitrage at h
  rcases hb : tr.buy_place with _ | buy_order <;> rw [hb] at h <;> dsimp only at h
  · cases h
  rcases hbp : poll_order_loop 10 buy_order tr.buy_polls 0 with _ | buy_final <;>
    rw [hbp] at h <;> dsimp only at h
  · cases h
  split at h
  · cases h
  rcases hs : tr.sell_place with _ | sell_order <;> rw [hs] at h <;> dsimp only at h
  · cases h
  rcases hsp : poll_order_loop 10 sell_order tr.sell_polls 0 with _ | sell_final <;>
    rw [hsp] at h <;> dsimp only at h
  · cases h
  split at h
  · cases h
  injection h with h
  subst h
  refine ⟨rfl, rfl, buy_order, sell_order, buy_final, sell_final, rfl, rfl, hbp, hsp, ?_⟩
  show opp.max_trade_amount / opp.buy_price * sell_final.price -
      opp.max_trade_amount / opp.buy_price * buy_final.price =
    opp.max_trade_amount / opp.buy_price * (sell_final.price - buy_final.price)
  ring

/-- A concrete opportunity for the C3 witness. -/
def c3_opp : ArbitrageOpportunity := ArbitrageOpportunity.new "BTC" .USDT .USDC 2 3 100 0

/-- The buy order of the C3 witness trace, filled immediately. -/
def c3_buy_order : OrderInfo :=
  { order_id := 1, symbol := "BTCUSDT", price := 2, qty := 50, side := .Buy,
    status := .Filled, timestamp := 0 }

/-- The sell order of the C3 witness trace, filled immediately. -/
def c3_sell_order : OrderInfo :=
  { order_id := 2, symbol := "BTCUSDC", price := 3, qty := 50, side := .Sell,
    status := .Filled, timestamp := 0 }

/-- A concrete exchange trace for the C3 witness: both legs fill at once. -/
def c3_trace : ExchangeTrace :=
  { buy_place := some c3_buy_order
    buy_polls := fun _ => none
    sell_place := some c3_sell_order
    sell_polls := fun _ => none }

/-- The result `execute_arbitrage` produces on `c3_opp` and `c3_trace`. -/
def c3_result : ArbitrageResult :=
  { base_asset := "BTC", buy_quote := "USDT", sell_quote := "USDC", buy_price := 2,
    sell_price := 3, trade_amount := 50, profit := 50, profit_percentage := 50,
    buy_order_id := some 1, sell_order_id := some 2, status := .Completed, timestamp := 0 }

lemma c3_execute_eval : execute_arbitrage c3_opp c3_trace = .ok c3_result := by
  unfold execute_arbitrage
  rw [show c3_trace.buy_place = some c3_buy_order from rfl]
  dsimp only
  rw [poll_order_loop_filled 9 c3_buy_order c3_trace.buy_polls 0 rfl]
  dsimp only
  rw [if_neg (by decide : ¬c3_buy_order.status ≠ OrderStatus.Filled)]
  rw [show c3_trace.sell_place = some c3_sell_order from rfl]
  dsimp only
  rw [poll_order_loop_filled 9 c3_sell_order c3_trace.sell_polls 0 rfl]
  dsimp only
  rw [if_neg (by decide : ¬c3_sell_order.status ≠ OrderStatus.Filled)]
  norm_num [c3_opp, c3_result, c3_buy_order, c3_sell_order, ArbitrageOpportunity.new,
    QuoteCurrency.show]

/-- Witness for C3 at a concrete trace. -/
theorem c3_completed_profit_witness :
    c3_result.status = .Completed ∧
    c3_result.trade_amount = c3_opp.max_trade_amount / c3_opp.buy_price ∧
    ∃ buy_order sell_order buy_final sell_final,
      c3_trace.buy_place = some buy_order ∧ c3_trace.sell_place = some sell_order ∧
      poll_order_loop 10 buy_order c3_trace.buy_polls 0 = some buy_final ∧
      poll_order_loop 10 sell_order c3_trace.sell_polls 0 = some sell_final ∧
      c3_result.profit = c3_result.trade_amount * (sell_final.price - buy_final.price) :=
  c3_completed_profit c3_opp c3_trace c3_result c3_execute_eval

/-! ## C4/C5: DailyLossLimitController -/

/-- C4: the check first applies the day rollover (a changed local
`(year, month, day)` triple zeroes the accumulator and the check proceeds
on that state, which the check itself leaves otherwise unchanged); it
denies exactly when the (post-rollover) `daily_pnl ≤ −max_daily_loss`; and
`record_result` adds `profit` to the (post-rollover) accumulator exactly
when the result status is `Completed`. -/
theorem c4_daily_loss_semantics (max_daily_loss : ℚ) (today : ℤ × ℕ × ℕ)
    (opp : ArbitrageOpportunity) (result : ArbitrageResult) (s : DailyLossLimitState) :
    ((loss_limit_check_opportunity max_daily_loss today opp s).1 = check_new_day today s) ∧
    (today ≠ s.current_date → (check_new_day today s).daily_pnl = 0) ∧
    ((loss_limit_check_opportunity max_daily_loss today opp s).2.1 = false ↔
      (check_new_day today s).daily_pnl ≤ -max_daily_loss) ∧
    ((loss_limit_record_result today result s).daily_pnl =
      (check_new_day today s).daily_pnl +
        (if result.status = .Completed then result.profit else 0)) := by
  refine ⟨?_, ?_, ?_, ?_⟩
  · unfold loss_limit_check_opportunity
    dsimp only
    split <;> rfl
  · intro hne
    unfold check_new_day
    rw [if_pos (fun he => hne he.symm)]
  · unfold loss_limit_check_opportunity
    dsimp only
    split
    · simpa using ‹_›
    · simpa using lt_of_not_le ‹_›
  · unfold loss_limit_record_result
    dsimp only
    split
    · rfl
    · exact (add_zero _).symm

/-- Witness for C4 at concrete inputs. -/
theorem c4_daily_loss_semantics_witness :
    ((loss_limit_check_opportunity 100 (2026, 1, 2) c3_opp
        ⟨(2026, 1, 1), -30⟩).1 = check_new_day (2026, 1, 2) ⟨(2026, 1, 1), -30⟩) ∧
    ((check_new_day (2026, 1, 2) ⟨(2026, 1, 1), -30⟩).daily_pnl = 0) ∧
    ((loss_limit_check_opportunity 100 (2026, 1, 2) c3_opp
        ⟨(2026, 1, 1), -30⟩).2.1 = false ↔
      (check_new_day (2026, 1, 2) ⟨(2026, 1, 1), -30⟩).daily_pnl ≤ -100) ∧
    ((loss_limit_record_result (2026, 1, 2) c3_result ⟨(2026, 1, 1), -30⟩).daily_pnl =
      (check_new_day (2026, 1, 2) ⟨(2026, 1, 1), -30⟩).daily_pnl +
        (if c3_result.status = .Completed then c3_result.profit else 0)) := by
  have h := c4_daily_loss_semantics 100 (2026, 1, 2) c3_opp c3_result ⟨(2026, 1, 1), -30⟩
  exact ⟨h.1, h.2.1 (by decide), h.2.2.1, h.2.2.2⟩

/-- A `Completed` result with profit −50, as in the repository's own
`test_daily_loss_limit` (src/risk/loss_limit.rs, lines 134–147). -/
def c5_loss_result : ArbitrageResult :=
  { base_asset := "BTC", buy_quote := "USDT", sell_quote := "USDC", buy_price := 50000,
    sell_price := 49900, trade_amount := 1/10, profit := -50, profit_percentage := -1/10,
    buy_order_id := some 1, sell_order_id := some 2, status := .Completed, timestamp := 0 }

/-- C5, evaluated on the code: with `max_daily_loss = 100`, after recording
only two `Completed` results with profit −50 each (accumulated PnL −100),
`check_opportunity` already denies, because the comparison in the source is
`daily_pnl <= -max_daily_loss`.  The claim — and the repository's own test
(src/risk/loss_limit.rs, lines 156–161), which asserts the check still
passes at exactly −100 — requires the third loss before the denial. -/
theorem c5_two_losses_already_denied :
    (loss_limit_check_opportunity 100 (2026, 1, 1) c3_opp
      (loss_limit_record_result (2026, 1, 1) c5_loss_result
        (loss_limit_record_result (2026, 1, 1) c5_loss_result
          ⟨(2026, 1, 1), 0⟩))).2.1 = false := by
  norm_num [loss_limit_check_opportunity, loss_limit_record_result, check_new_day,
    c5_loss_result, c3_opp, ArbitrageOpportunity.new, c3_result]

/-! ## C6: TradingFrequencyController -/

lemma dropWhile_length_eq_countP_of_sorted (cutoff : ℚ) (l : List ℚ)
    (hsort : l.Sorted (· ≤ ·)) :
    (l.dropWhile (fun t => t < cutoff)).length = l.countP (fun t => cutoff ≤ t) := by
  induction l with
  | nil => rfl
  | cons a l ih =>
    rw [List.sorted_cons] at hsort
    by_cases ha : a < cutoff
    · have hna : ¬cutoff ≤ a := not_le_of_lt ha
      simp only [List.dropWhile_cons, List.countP_cons, ha, hna,
        decide_eq_true_eq, if_true, if_false]
      simpa using ih hsort.2
    · have hca : cutoff ≤ a := le_of_not_lt ha
      simp only [List.dropWhile_cons, List.countP_cons, ha, hca,
        decide_eq_true_eq, if_true, if_false]
      have hall : List.countP (fun t => decide (cutoff ≤ t)) l = l.length :=
        List.countP_eq_length.mpr (fun t ht => by simpa using le_trans hca (hsort.1 t ht))
      simp [hall]

/-- C6: with chronologically ordered recorded trades, `check_opportunity`
allows exactly when the elapsed time since the last recorded trade is at
least `min_interval_seconds` (or there is none) AND the number of recorded
trades within the trailing `timeframe_seconds` window is strictly below
`max_trades_per_timeframe`; and `record_result` records the trade
timestamp exactly when the result status is `Completed` or `Failed`. -/
theorem c6_frequency_gates (min_interval_seconds : ℚ) (max_trades_per_timeframe : ℕ)
    (timeframe_seconds : ℚ) (now : ℚ) (result : ArbitrageResult)
    (s : TradingFrequencyState) (hsort : s.recent_trades.Sorted (· ≤ ·)) :
    ((check_frequency min_interval_seconds max_trades_per_timeframe timeframe_seconds
        now s).2.1 = true ↔
      (∀ last_time ∈ s.last_trade_time, min_interval_seconds ≤ now - last_time) ∧
      s.recent_trades.countP (fun t => now - timeframe_seconds ≤ t) <
        max_trades_per_timeframe) ∧
    ((frequency_record_result now result s).last_trade_time = some now ∧
      (frequency_record_result now result s).recent_trades = s.recent_trades ++ [now] ↔
      (result.status = .Completed ∨ result.status = .Failed)) := by
  constructor
  · unfold check_frequency
    rw [← dropWhile_length_eq_countP_of_sorted (now - timeframe_seconds) _ hsort]
    rcases hl : s.last_trade_time with _ | last_time <;> dsimp only
    · split
      · simp only [Bool.false_eq_true, false_iff, not_and]
        intro _ h2
        exact absurd ‹_› (Nat.not_le.mpr h2)
      · simp only [true_iff]
        exact ⟨by simp, Nat.lt_of_not_le ‹_›⟩
    · by_cases hint : now - last_time < min_interval_seconds
      · rw [if_pos hint]
        simp only [Bool.false_eq_true, false_iff, not_and, Option.mem_def,
          Option.some.injEq]
        intro h1
        exact absurd (h1 last_time rfl) (not_le_of_lt hint)
      · rw [if_neg hint]
        split
        · simp only [Bool.false_eq_true, false_iff, not_and]
          intro _ h2
          exact absurd ‹_› (Nat.not_le.mpr h2)
        · simp only [true_iff]
          refine ⟨?_, Nat.lt_of_not_le ‹_›⟩
          intro lt hlt
          cases Option.some.inj hlt
          exact le_of_not_lt hint
  · unfold frequency_record_result
    split
    · simpa using ‹_›
    · constructor
      · rintro ⟨-, h⟩
        exact absurd h (by simp)
      · intro h
        exact absurd h ‹_›

/-- Witness for C6 at concrete inputs. -/
theorem c6_frequency_gates_witness :
    ((check_frequency 30 5 600 100 ⟨some 50, [50]⟩).2.1 = true ↔
      (∀ last_time ∈ (some (50 : ℚ) : Option ℚ), (30 : ℚ) ≤ 100 - last_time) ∧
      ([(50 : ℚ)].countP (fun t => (100 : ℚ) - 600 ≤ t) < 5)) ∧
    ((frequency_record_result 100 c3_result ⟨some 50, [50]⟩).last_trade_time = some 100 ∧
      (frequency_record_result 100 c3_result ⟨some 50, [50]⟩).recent_trades =
        [50] ++ [100] ↔
      (c3_result.status = .Completed ∨ c3_result.status = .Failed)) :=
  c6_frequency_gates 30 5 600 100 c3_result ⟨some 50, [50]⟩ (by simp)

/-! ## C7: AbnormalPriceController cooldown -/

lemma add_price_last_abnormal_time (w : ℕ) (now : ℚ) (sym : String) (p : ℚ)
    (s : AbnormalPriceState) :
    (add_price w now sym p s).last_abnormal_time = s.last_abnormal_time := rfl

lemma abnormal_check_in_cooldown (w : ℕ) (th cd now t0 : ℚ)
    (opp : ArbitrageOpportunity) (s : AbnormalPriceState)
    (hs : s.last_abnormal_time = some t0) (hlt : now - t0 < cd) :
    (abnormal_check_opportunity w th cd now opp s).2 = (false, some cooldown_reason) ∧
    (abnormal_check_opportunity w th cd now opp s).1.last_abnormal_time = some t0 := by
  unfold abnormal_check_opportunity
  have htimer : ∀ sym1 p1 sym2 p2,
      (add_price w now sym2 p2 (add_price w now sym1 p1 s)).last_abnormal_time = some t0 := by
    intro sym1 p1 sym2 p2
    rw [add_price_last_abnormal_time, add_price_last_abnormal_time, hs]
  have hcool : ∀ s1 : AbnormalPriceState, s1.last_abnormal_time = some t0 →
      is_in_cooldown cd now s1 = true := by
    intro s1 h1
    unfold is_in_cooldown
    rw [h1]
    exact decide_eq_true hlt
  rcases hq : opp.buy_quote <;> dsimp only <;>
    rw [if_pos (hcool _ (htimer _ _ _ _))] <;> exact ⟨rfl, htimer _ _ _ _⟩

/-- A sequence of `check_opportunity` calls, each given as `(now, opp)`,
run against the evolving controller state; returns the `(allow, reason)`
outputs in order. -/
def run_abnormal_checks (w : ℕ) (th cd : ℚ) :
    List (ℚ × ArbitrageOpportunity) → AbnormalPriceState → List (Bool × Option String)
  | [], _ => []
  | (now, opp) :: rest, s =>
      (abnormal_check_opportunity w th cd now opp s).2 ::
        run_abnormal_checks w th cd rest (abnormal_check_opportunity w th cd now opp s).1

/-- C7 (amended): a denial issued while the controller is NOT in cooldown —
an abnormal-price detection — starts the cooldown timer at the denial
time, and every `check_opportunity` call made within `cooldown_period`
seconds of the timer denies with the cooldown reason regardless of its
opportunity's prices.  (A denial that merely reports an ongoing cooldown
does not restart the timer.) -/
theorem c7_cooldown (w : ℕ) (th cd : ℚ) :
    (∀ now (opp : ArbitrageOpportunity) (s : AbnormalPriceState),
      is_in_cooldown cd now s = false →
      (abnormal_check_opportunity w th cd now opp s).2.1 = false →
      (abnormal_check_opportunity w th cd now opp s).1.last_abnormal_time = some now) ∧
    (∀ (t0 : ℚ) (calls : List (ℚ × ArbitrageOpportunity)) (s : AbnormalPriceState),
      s.last_abnormal_time = some t0 →
      (∀ c ∈ calls, c.1 - t0 < cd) →
      ∀ r ∈ run_abnormal_checks w th cd calls s, r = (false, some cooldown_reason)) := by
  constructor
  · intro now opp s hnc hdeny
    unfold abnormal_check_opportunity at hdeny ⊢
    have hnc1 : ∀ sym1 p1 sym2 p2,
        is_in_cooldown cd now (add_price w now sym2 p2 (add_price w now sym1 p1 s)) =
          false := by
      intro sym1 p1 sym2 p2
      unfold is_in_cooldown at hnc ⊢
      rw [add_price_last_abnormal_time, add_price_last_abnormal_time]
      exact hnc
    rcases hq : opp.buy_quote <;> rw [hq] at hdeny <;> dsimp only at hdeny ⊢ <;>
      rw [hnc1] at hdeny ⊢ <;> rw [if_neg (by simp)] at hdeny ⊢ <;>
      (split at hdeny
       · rfl
       · (split at hdeny
          · rfl
          · simp at hdeny))
  · intro t0 calls
    induction calls with
    | nil => intro s _ _ r hr; cases hr
    | cons c rest ih =>
      intro s hs hwin r hr
      rcases c with ⟨now, opp⟩
      have hc := abnormal_check_in_cooldown w th cd now t0 opp s hs
        (hwin (now, opp) (List.mem_cons_self _ _))
      unfold run_abnormal_checks at hr
      rcases List.mem_cons.mp hr with rfl | hr
      · exact hc.1
      · exact ih _ hc.2 (fun c hcm => hwin c (List.mem_cons_of_mem _ hcm)) r hr

/-- Pre-seeded BTCUSDT history for the C7 counterexample (window 2). -/
def c7_setup : AbnormalPriceState :=
  add_price 2 0 "BTCUSDT" 100 (add_price 2 0 "BTCUSDT" 100 ⟨[], none⟩)

/-- An opportunity whose buy price 200 is abnormal against the seeded
history. -/
def c7_oppA : ArbitrageOpportunity :=
  ArbitrageOpportunity.new "BTC" .USDT .USDC 200 100 1000 0

/-- An opportunity with unremarkable prices. -/
def c7_oppB : ArbitrageOpportunity :=
  ArbitrageOpportunity.new "BTC" .USDT .USDC 100 100 1000 0

/-- The controller state after the abnormal denial at time 0
(window 2, threshold 10 %, cooldown 60 s). -/
def c7_state1 : AbnormalPriceState :=
  (abnormal_check_opportunity 2 10 60 0 c7_oppA c7_setup).1

/-- The controller state after the cooldown denial at time 59. -/
def c7_state2 : AbnormalPriceState :=
  (abnormal_check_opportunity 2 10 60 59 c7_oppB c7_state1).1

lemma c7_check1_eval :
    abnormal_check_opportunity 2 10 60 0 c7_oppA c7_setup =
      (⟨[⟨0, "BTCUSDT", 100⟩, ⟨0, "BTCUSDT", 100⟩, ⟨0, "BTCUSDT", 200⟩,
          ⟨0, "BTCUSDC", 100⟩], some 0⟩, false, some (abnormal_reason "BTCUSDT")) := by
  simp [abnormal_check_opportunity, c7_setup, c7_oppA, add_price,
    detect_abnormal_price, is_in_cooldown, ArbitrageOpportunity.new, abnormal_reason,
    List.dropLast, List.getLastD]
  norm_num

lemma c7_state1_eval :
    c7_state1 = ⟨[⟨0, "BTCUSDT", 100⟩, ⟨0, "BTCUSDT", 100⟩, ⟨0, "BTCUSDT", 200⟩,
      ⟨0, "BTCUSDC", 100⟩], some 0⟩ := by
  rw [c7_state1, c7_check1_eval]

lemma c7_check2_eval :
    abnormal_check_opportunity 2 10 60 59 c7_oppB c7_state1 =
      (⟨[⟨0, "BTCUSDT", 200⟩, ⟨0, "BTCUSDC", 100⟩, ⟨59, "BTCUSDT", 100⟩,
          ⟨59, "BTCUSDC", 100⟩], some 0⟩, false, some cooldown_reason) := by
  rw [c7_state1_eval]
  simp [abnormal_check_opportunity, c7_oppB, add_price, is_in_cooldown,
    ArbitrageOpportunity.new]
  norm_num

lemma c7_state2_eval :
    c7_state2 = ⟨[⟨0, "BTCUSDT", 200⟩, ⟨0, "BTCUSDC", 100⟩, ⟨59, "BTCUSDT", 100⟩,
      ⟨59, "BTCUSDC", 100⟩], some 0⟩ := by
  rw [c7_state2, c7_check2_eval]

lemma c7_check3_eval :
    (abnormal_check_opportunity 2 10 60 60 c7_oppB c7_state2).2.1 = true := by
  rw [c7_state2_eval]
  simp [abnormal_check_opportunity, c7_oppB, add_price, is_in_cooldown,
    detect_abnormal_price, ArbitrageOpportunity.new, List.dropLast, List.getLastD]
  norm_num

/-- Counterexample to C7 as stated: the check at time 59 denies (the
cooldown was started by an abnormal denial at time 0), yet the check at
time 60 — only one second later, well within `cooldown_period = 60`
seconds of that denial — allows.  A cooldown denial does not restart the
timer, so "after any denial, every check within the next `cooldown_period`
seconds denies" is false on the code. -/
theorem c7_counterexample :
    ((abnormal_check_opportunity 2 10 60 0 c7_oppA c7_setup).2.1 = false) ∧
    ((abnormal_check_opportunity 2 10 60 59 c7_oppB c7_state1).2.1 = false) ∧
    ((60 : ℚ) - 59 < 60) ∧
    ((abnormal_check_opportunity 2 10 60 60 c7_oppB c7_state2).2.1 = true) := by
  refine ⟨?_, ?_, by norm_num, c7_check3_eval⟩
  · rw [c7_check1_eval]
  · rw [c7_check2_eval]

/-- Witness for C7 (amended) at concrete inputs. -/
theorem c7_cooldown_witness :
    ((abnormal_check_opportunity 2 10 60 0 c7_oppA c7_setup).2.1 = false →
      (abnormal_check_opportunity 2 10 60 0 c7_oppA c7_setup).1.last_abnormal_time =
        some 0) ∧
    (∀ r ∈ run_abnormal_checks 2 10 60 [(59, c7_oppB)] c7_state1,
      r = (false, some cooldown_reason)) := by
  constructor
  · exact (c7_cooldown 2 10 60).1 0 c7_oppA c7_setup
      (by simp [is_in_cooldown, c7_setup, add_price])
  · exact (c7_cooldown 2 10 60).2 0 [(59, c7_oppB)] c7_state1
      (by rw [c7_state1_eval])
      (by intro c hc; rcases List.mem_singleton.mp hc with rfl; norm_num)

/-! ## C8: TrendFollowingStrategy -/

/-- Price history for the C8 counterexample (`short_window = 2`,
`long_window = 4`, `trend_threshold = 1`): after recording the current
sample `(203, 204)`, the USDT prices are `[197, 197, 203, 203]`, whose
short mean 203 is exactly 1.5 % above the long mean 200. -/
def c8_state : TrendState :=
  ⟨[(0, 197, 204), (0, 197, 204), (0, 203, 204)]⟩

/-- Counterexample to C8 as stated: the USDT trend is Up with strength
exactly 1.5 %, the intended leg is Buy USDT (spot 203 < 204), yet
`find_opportunity` returns `Some` — the source only aborts for adverse
strength strictly above 2 % — with the trade amount scaled to 95. -/
theorem c8_counterexample :
    calculate_trend 2 4 1 true (trend_record_price 4 0 203 204 c8_state) =
      (.Up, 3/2) ∧
    ((203 : ℚ) < 204) ∧
    (trend_find_opportunity 2 4 1 100 0 "BTC" 203 204 c8_state).2 =
      some ⟨"BTC", .USDT, .USDC, 203, 204, 1, 100/203, 95, 0⟩ := by
  refine ⟨?_, by norm_num, ?_⟩
  · simp [calculate_trend, trend_record_price, c8_state]
    norm_num
  · simp [trend_find_opportunity, trend_record_price, c8_state,
      has_recent_volatility_spike, adjacent_changes, calculate_trend,
      trend_adjust_amount, ArbitrageOpportunity.new]
    norm_num [abs_of_nonneg]

/-- C8 (amended): on a Buy-USDT tick (usdt spot below usdc spot) with no
recent volatility spike, the tick aborts only for an adverse trend of
strength strictly above 2 %; when both trend strengths are at most 2 — in
particular for an Up-trend of strength 1.5 % — `find_opportunity` returns
`Some` opportunity buying USDT at the usdt spot and selling USDC at the
usdc spot (with only the trade amount possibly reduced). -/
theorem c8_no_abort_at_moderate_trend (sw lw : ℕ) (th amt now : ℚ) (base : String)
    (u c : ℚ) (s : TrendState)
    (hspike : has_recent_volatility_spike now 5 (trend_record_price lw now u c s) = false)
    (hu : u < c)
    (husdt : (calculate_trend sw lw th true (trend_record_price lw now u c s)).2 ≤ 2)
    (husdc : (calculate_trend sw lw th false (trend_record_price lw now u c s)).2 ≤ 2) :
    ∃ o, (trend_find_opportunity sw lw th amt now base u c s).2 = some o ∧
      o.buy_quote = .USDT ∧ o.sell_quote = .USDC ∧ o.buy_price = u ∧ o.sell_price = c := by
  unfold trend_find_opportunity
  dsimp only
  rw [hspike, if_neg (by simp), if_pos hu, if_neg ?_]
  · refine ⟨_, rfl, ?_⟩
    unfold trend_adjust_amount
    split <;> exact ⟨rfl, rfl, rfl, rfl⟩
  · rintro (⟨-, h2⟩ | ⟨-, h2⟩)
    · exact absurd h2 (not_lt_of_le husdt)
    · exact absurd h2 (not_lt_of_le husdc)

/-- Witness for C8 (amended) at concrete inputs. -/
theorem c8_no_abort_at_moderate_trend_witness :
    ∃ o, (trend_find_opportunity 2 4 1 100 0 "BTC" 203 204 c8_state).2 = some o ∧
      o.buy_quote = .USDT ∧ o.sell_quote = .USDC ∧ o.buy_price = 203 ∧
      o.sell_price = 204 :=
  c8_no_abort_at_moderate_trend 2 4 1 100 0 "BTC" 203 204 c8_state
    (by simp [has_recent_volatility_spike, trend_record_price, c8_state,
        adjacent_changes] ; norm_num [abs_of_nonneg])
    (by norm_num)
    (by simp [calculate_trend, trend_record_price, c8_state] ; norm_num [abs_of_nonneg])
    (by simp [calculate_trend, trend_record_price, c8_state] ; norm_num [abs_of_nonneg])

/-! ## C9: RiskManager.validate_opportunity -/

/-- Whether one controller outcome counts as an allowance. -/
def outcome_allows : CheckOutcome → Bool
  | .ok true _ => true
  | .ok false _ => false
  | .err _ => false

/-- The rejection reason one controller outcome contributes, if any. -/
def outcome_reason (name : String) : CheckOutcome → Option String
  | .ok true _ => none
  | .ok false (some r) => some (name ++ ": " ++ r)
  | .ok false none => none
  | .err e => some (name ++ ": 风控检查错误 - " ++ e)

lemma validate_opportunity_loop_spec (controllers : List (String × CheckOutcome)) :
    ∀ (is_valid : Bool) (reasons : List String),
    validate_opportunity_loop controllers is_valid reasons =
      (is_valid && controllers.all (fun p => outcome_allows p.2),
       reasons ++ controllers.filterMap (fun p => outcome_reason p.1 p.2)) := by
  induction controllers with
  | nil => intro is_valid reasons; simp [validate_opportunity_loop]
  | cons p rest ih =>
    intro is_valid reasons
    rcases p with ⟨name, oc⟩
    rcases oc with ⟨allow, reason⟩ | e
    · rcases allow with _ | _
      · rcases reason with _ | r <;>
          simp [validate_opportunity_loop, ih, outcome_allows, outcome_reason,
            List.filterMap_cons]
      · rcases reason with _ | r <;>
          simp [validate_opportunity_loop, ih, outcome_allows, outcome_reason,
            List.filterMap_cons]
    · simp [validate_opportunity_loop, ih, outcome_allows, outcome_reason,
        List.filterMap_cons]

/-- C9: `validate_opportunity` visits every controller without
short-circuiting: it returns `allow = true` exactly when every controller's
check returned `Ok(true, _)`; the reasons list is the in-order concatenation
of one reason per non-allowing controller — `"name: reason"` for an
explicit denial that carries a reason, and `"name: 风控检查错误 - e"` for a
controller whose check erred (an error is a denial, not an abort). -/
theorem c9_validate_accumulates (controllers : List (String × CheckOutcome)) :
    validate_opportunity controllers =
      (controllers.all (fun p => outcome_allows p.2),
       controllers.filterMap (fun p => outcome_reason p.1 p.2)) := by
  unfold validate_opportunity
  rw [validate_opportunity_loop_spec]
  simp

/-! ## C10: reset postconditions -/

/-- Counterexample to C10 as stated: a `TradingFrequencyController`
configured with `max_trades_per_timeframe = 0` denies every opportunity
even immediately after `reset()` — the pruned trade count 0 is not
strictly below 0. -/
theorem c10_counterexample :
    (check_frequency 1 0 600 0 (frequency_reset ⟨some 5, [5]⟩)).2.1 = false := by
  rfl

lemma base_usdt_ne_usdc (base : String) : base ++ "USDT" ≠ base ++ "USDC" := by
  intro h
  have hd := congrArg String.data h
  rw [String.data_append, String.data_append] at hd
  exact absurd (List.append_cancel_left hd) (by decide)

/-- C10 (amended): after `reset()` the immediately following
`check_opportunity` allows for any input — for `DailyLossLimitController`
provided `max_daily_loss > 0`, for `TradingFrequencyController` provided
`max_trades_per_timeframe > 0`, and for `AbnormalPriceController` and
`PairBlacklistController` unconditionally. -/
theorem c10_reset_allows (max_daily_loss : ℚ) (today : ℤ × ℕ × ℕ)
    (opp : ArbitrageOpportunity) (sd : DailyLossLimitState)
    (min_interval_seconds : ℚ) (max_trades_per_timeframe : ℕ) (timeframe_seconds now : ℚ)
    (sf : TradingFrequencyState) (window_size : ℕ) (abnormal_threshold cooldown_period : ℚ)
    (sa : AbnormalPriceState) (sb : PairBlacklistState)
    (hmax : 0 < max_daily_loss) (hmt : 0 < max_trades_per_timeframe) :
    (loss_limit_check_opportunity max_daily_loss today opp (loss_limit_reset sd)).2 =
      (true, none) ∧
    (check_frequency min_interval_seconds max_trades_per_timeframe timeframe_seconds now
      (frequency_reset sf)).2 = (true, none) ∧
    (abnormal_check_opportunity window_size abnormal_threshold cooldown_period now opp
      (abnormal_reset sa)).2 = (true, none) ∧
    blacklist_check_opportunity opp (blacklist_reset sb) = (true, none) := by
  refine ⟨?_, ?_, ?_, ?_⟩
  · unfold loss_limit_check_opportunity loss_limit_reset check_new_day
    split <;> dsimp only <;>
      rw [if_neg (not_le_of_lt (by linarith : -max_daily_loss < 0))]
  · unfold check_frequency frequency_reset
    dsimp only
    rw [if_neg (by simpa using Nat.pos_iff_ne_zero.mp hmt)]
  · have hne := base_usdt_ne_usdc opp.base_asset
    have hne2 := Ne.symm hne
    rcases hq : opp.buy_quote <;>
      simp only [abnormal_check_opportunity, abnormal_reset, add_price, hq] <;>
      split_ifs <;>
      simp_all [detect_abnormal_price, is_in_cooldown]
  · rfl

/-- Witness for C10 (amended) at concrete inputs. -/
theorem c10_reset_allows_witness :
    (loss_limit_check_opportunity 100 (2026, 1, 1) c3_opp
      (loss_limit_reset ⟨(2026, 1, 1), -500⟩)).2 = (true, none) ∧
    (check_frequency 1 1 600 0 (frequency_reset ⟨some 5, [5]⟩)).2 = (true, none) ∧
    (abnormal_check_opportunity 5 10 60 0 c3_opp
      (abnormal_reset ⟨[⟨0, "BTCUSDT", 1⟩], some 0⟩)).2 = (true, none) ∧
    blacklist_check_opportunity c3_opp (blacklist_reset ⟨["BTCUSDT"]⟩) = (true, none) :=
  c10_reset_allows 100 (2026, 1, 1) c3_opp ⟨(2026, 1, 1), -500⟩ 1 1 600 0
    ⟨some 5, [5]⟩ 5 10 60 ⟨[⟨0, "BTCUSDT", 1⟩], some 0⟩ ⟨["BTCUSDT"]⟩
    (by norm_num) (by norm_num)
